import Mathlib

/-!
Verification development for the NepalReform repository.

This file gives a shallow embedding, in Lean 4, of the pure computational
content of the repository's TypeScript sources:

* `lib/utils/uuid-helpers` (id validation, manifesto-id normalization and the
  deterministic pseudo-UUID generator);
* the edge middleware guarding the `/api/admin` path;
* the `/api/suggestions` GET and POST route handlers (with the database access
  and the external origin/rate-limit modules abstracted as explicit inputs);
* the client-side optimistic vote update, popularity sorting and the seeded
  shuffle of the list components;
* the pagination clamping of the `/api/testimonials` GET route.

JavaScript machine integers are modelled as `Int` with explicit reduction
modulo 2^32 where the source relies on 32-bit truncation; JavaScript string
code units are modelled by `Char.toNat` (they agree on the ASCII inputs all
claims quantify over); query parameters parsed with `Number` are modelled as
`Option ℚ` (`none` standing for a non-finite parse result).
-/

/-! ### Generic character / list helpers (JS string primitives) -/

/-- Hexadecimal digit test matching the character class of the UUID regular
expression in `uuid-helpers` under its case-insensitive flag. -/
def isHexDigit (c : Char) : Bool :=
  c.isDigit || ( 'a' ≤ c && c ≤ 'f') || ( 'A' ≤ c && c ≤ 'F')

/-- Fuel-driven base-16 printer; `natToHex` below instantiates the fuel so that
it mirrors JavaScript `Number.prototype.toString(16)` on natural numbers
(minimal lowercase hexadecimal digits). -/
def natToHexAux : Nat → Nat → List Char
  | 0, _ => []
  | fuel + 1, n =>
    if n < 16 then [Nat.digitChar n]
    else natToHexAux fuel (n / 16) ++ [Nat.digitChar (n % 16)]

/-- JavaScript `n.toString(16)` for a natural number `n`. -/
def natToHex (n : Nat) : List Char := natToHexAux (n + 1) n

/-- JavaScript `String.prototype.padStart(n, c)` for a one-character pad. -/
def padStartList (s : List Char) (n : Nat) (c : Char) : List Char :=
  List.replicate (n - s.length) c ++ s

/-- JavaScript `String.prototype.padEnd(n, c)` for a one-character pad. -/
def padEndList (s : List Char) (n : Nat) (c : Char) : List Char :=
  s ++ List.replicate (n - s.length) c

/-- `matchesAt pat s` holds when `pat` occurs at the very start of `s`. -/
def matchesAt : List Char → List Char → Bool
  | [], _ => true
  | _ :: _, [] => false
  | p :: ps, c :: cs => p == c && matchesAt ps cs

/-- JavaScript `String.prototype.replace` with a plain-string pattern: replace
the first occurrence of `pat` by `repl`, returning the input unchanged when
`pat` does not occur. -/
def replaceFirstList (pat repl : List Char) : List Char → List Char
  | [] => if matchesAt pat [] then repl ++ List.drop pat.length [] else []
  | c :: rest =>
    if matchesAt pat (c :: rest) then repl ++ List.drop pat.length (c :: rest)
    else c :: replaceFirstList pat repl rest

/-- Split a character list at every `'-'`, keeping empty groups, exactly as the
anchored UUID regular expression decomposes its subject. -/
def splitOnDash : List Char → List (List Char)
  | [] => [[]]
  | c :: rest =>
    if c = '-' then [] :: splitOnDash rest
    else
      match splitOnDash rest with
      | [] => [[c]]
      | g :: gs => (c :: g) :: gs

/-! ### `lib/utils/uuid-helpers` -/

/-- Version group of the UUID pattern: `[1-5][0-9a-f]{3}` (first character). -/
def versionDigitOk : List Char → Bool
  | c :: _ => ('1' ≤ c) && c ≤ '5'
  | [] => false

/-- Variant group of the UUID pattern: `[89ab][0-9a-f]{3}` (first character,
case-insensitive). -/
def variantDigitOk : List Char → Bool
  | c :: _ => c == '8' || c == '9' || c == 'a' || c == 'b' || c == 'A' || c == 'B'
  | [] => false

/-- `isValidUUID` from `uuid-helpers`: the anchored regular expression
`[0-9a-f]{8}-[0-9a-f]{4}-[1-5][0-9a-f]{3}-[89ab][0-9a-f]{3}-[0-9a-f]{12}`
with the case-insensitive flag, decomposed into its five dash-separated
groups. -/
def isValidUUID (uuid : String) : Bool :=
  match splitOnDash uuid.data with
  | [g1, g2, g3, g4, g5] =>
    g1.length == 8 && g1.all isHexDigit &&
    (g2.length == 4 && g2.all isHexDigit) &&
    (g3.length == 4 && versionDigitOk g3 && (g3.drop 1).all isHexDigit) &&
    (g4.length == 4 && variantDigitOk g4 && (g4.drop 1).all isHexDigit) &&
    (g5.length == 12 && g5.all isHexDigit)
  | _ => false

/-- `isManifestoFormat`: the anchored pattern `manifesto-` followed by one or
more decimal digits. -/
def isManifestoFormat (id : String) : Bool :=
  matchesAt "manifesto-".data id.data &&
    !(id.data.drop "manifesto-".data.length).isEmpty &&
    (id.data.drop "manifesto-".data.length).all Char.isDigit

/-- `isRawInteger`: the anchored pattern of one or more decimal digits. -/
def isRawInteger (id : String) : Bool :=
  !id.data.isEmpty && id.data.all Char.isDigit

/-- `toManifestoFormat` from `uuid-helpers`. -/
def toManifestoFormat (id : String) : String :=
  if isRawInteger id then "manifesto-" ++ id else id

/-- JavaScript `ToInt32`: reduce an integer into the interval
`[-2^31, 2^31)`. -/
def toInt32 (x : Int) : Int :=
  (x + 2147483648) % 4294967296 - 2147483648

/-- The 32-bit rolling hash loop of `generateDeterministicUUID`:
`hash = (hash << 5) - hash + charCode; hash = hash & hash` folded over the
code units of the seed string, starting from `0`. -/
def hashString (s : String) : Int :=
  s.data.foldl (fun h c => toInt32 (toInt32 (h * 32) - h + c.toNat)) 0

/-- The padded hexadecimal block of `generateDeterministicUUID`:
`Math.abs(hash).toString(16).padStart(8, "0")` for the seed
`"agenda-" + manifestoId`. -/
def uuidHex (manifestoId : String) : List Char :=
  padStartList (natToHex (hashString ("agenda-" ++ manifestoId)).natAbs) 8 '0'

/-- The zero-padded number block of `generateDeterministicUUID`:
`manifestoId.replace("manifesto-", "").padStart(4, "0")`. -/
def uuidNumberPart (manifestoId : String) : List Char :=
  padStartList (replaceFirstList "manifesto-".data [] manifestoId.data) 4 '0'

/-- `generateDeterministicUUID` from `uuid-helpers`: the template
`hex.substring(0,8) - manifestoNumber - 4000 - 8(hex.substring(8,11) or "000")
- hex.substring(0,12).padEnd(12,"0")`. -/
def generateDeterministicUUID (manifestoId : String) : String :=
  let hex := uuidHex manifestoId
  let manifestoNumber := uuidNumberPart manifestoId
  let mid := (hex.drop 8).take 3
  String.mk
    (hex.take 8 ++ '-' ::
      (manifestoNumber ++ '-' ::
        ("4000".data ++ '-' ::
          (('8' :: (if mid.isEmpty then "000".data else mid)) ++ '-' ::
            padEndList (hex.take 12) 12 '0'))))

/-- `getOrCreateAgendaUUID` from `uuid-helpers`.  The select on
`agendas.sequence_id` is abstracted into the `lookup` argument mapping a
sequence number to the stored UUID when a row exists; a failed
`Number.parseInt` (a database error in the source, caught and turned into
`null`) yields `none`. -/
def getOrCreateAgendaUUID (lookup : Nat → Option String) (manifestoId : String) :
    Option String :=
  match (String.mk (replaceFirstList "manifesto-".data [] manifestoId.data)).toNat? with
  | none => none
  | some n =>
    match lookup n with
    | some uuid => some uuid
    | none => some (generateDeterministicUUID manifestoId)

/-- Result record of `validateAndNormalizeAgendaId`. -/
structure ValidationResult where
  isValid : Bool
  normalizedId : String
  agendaUUID : Option String

/-- `validateAndNormalizeAgendaId` from `uuid-helpers`. -/
def validateAndNormalizeAgendaId (lookup : Nat → Option String) (id : String) :
    ValidationResult :=
  if isValidUUID id then
    { isValid := true, normalizedId := id, agendaUUID := some id }
  else if isRawInteger id then
    let nid := toManifestoFormat id
    { isValid := true, normalizedId := nid, agendaUUID := getOrCreateAgendaUUID lookup nid }
  else if isManifestoFormat id then
    { isValid := true, normalizedId := id, agendaUUID := getOrCreateAgendaUUID lookup id }
  else
    { isValid := false, normalizedId := id, agendaUUID := none }

/-! ### Edge middleware (`middleware.ts`) -/

/-- Outcome of the middleware: forward the request (`next`, the `res`
pass-through), or answer `401` (`unauthorized`) or `403` (`forbidden`). -/
inductive MiddlewareResult where
  | next
  | unauthorized
  | forbidden
deriving DecidableEq

/-- `req.nextUrl.pathname.startsWith("/api/admin")`. -/
def pathIsAdminAPI (path : String) : Bool :=
  matchesAt "/api/admin".data path.data

/-- The middleware.  `configured` models the presence of both Supabase
environment variables (when absent the handler returns early and forwards
every request); `user` is the outcome of `supabase.auth.getUser()` (`none` for
an error or a missing user); `roleOf` models the `profiles.role` select for a
user id. -/
def middleware (configured : Bool) (path : String) (user : Option String)
    (roleOf : String → Option String) : MiddlewareResult :=
  if !configured then .next
  else if pathIsAdminAPI path then
    match user with
    | none => .unauthorized
    | some uid => if roleOf uid = some "admin" then .next else .forbidden
  else .next

/-! ### `/api/suggestions` route (`app/api/suggestions/route.ts`) -/

/-- A row of the `suggestions` table (`created_at` as an epoch value). -/
structure SuggestionRow where
  id : String
  agenda_id : String
  user_id : String
  content : String
  author_name : String
  status : String
  created_at : Int
deriving DecidableEq

/-- Parsed JSON body of a suggestion POST (absent fields are `none`). -/
structure PostBody where
  agenda_id : Option String
  content : Option String
  author_name : Option String

/-- One incoming POST request.  `originAllowed` is the outcome of the external
`isAllowedOrigin` check, `now` the arrival time in milliseconds used by the
rate limiter, `authUser` the outcome of `supabase.auth.getUser()` (`none` for
an auth error or a missing user). -/
structure PostRequest where
  originAllowed : Bool
  now : Nat
  authUser : Option String
  body : PostBody

/-- Server-side state visible to the route: the rate-limit timestamp history
for the requests' IP, the `suggestions` table, the
`agendas.sequence_id → id` mapping, and the `auto_approve_suggestions`
system setting. -/
structure ServerState where
  rateHistory : List Nat
  suggestions : List SuggestionRow
  agendaLookup : Nat → Option String
  autoApprove : Bool

/-- JavaScript `String.prototype.trim`: remove whitespace from both ends. -/
def jsTrim (s : String) : String :=
  String.mk
    (((s.data.dropWhile Char.isWhitespace).reverse.dropWhile Char.isWhitespace).reverse)

/-- The `!field || field.trim().length === 0` validation applied to `content`
and `author_name`: absent, empty, or whitespace-only. -/
def contentInvalid : Option String → Bool
  | none => true
  | some s => (jsTrim s).data.isEmpty

/-- Modelled from the spec: the module `lib/security/rate-limit` is not among
the provided sources.  Per the spec, suggestion creation "applies a per-IP
rate limit (5 per 10 minutes)" and "the 6th suggestion POST from the same IP
within 10 minutes is rejected".  We model a sliding window over the timestamps
of previously admitted requests from the same IP: a request at time `now` is
rejected when at least `limit` admitted requests lie strictly within the last
`window` milliseconds, and is recorded in the history otherwise. -/
def checkRateLimit (history : List Nat) (now limit window : Nat) :
    Bool × List Nat :=
  let recent := history.filter (fun t => now - t < window)
  if limit ≤ recent.length then (false, recent) else (true, now :: recent)

/-- The POST handler after the origin and rate-limit gates, operating on the
state whose rate history was already updated.  Mirrors the source order:
auth check (401), presence of `agenda_id` / non-empty `content` /
non-empty `author_name` (400), agenda-id validation (400), then the insert
with status decided by `auto_approve_suggestions`. -/
def postAfterRate (st : ServerState) (req : PostRequest) : Nat × ServerState :=
  match req.authUser with
  | none => (401, st)
  | some uid =>
    match req.body.agenda_id with
    | none => (400, st)
    | some aid =>
      if aid = "" then (400, st)
      else if contentInvalid req.body.content then (400, st)
      else if contentInvalid req.body.author_name then (400, st)
      else
        let v := validateAndNormalizeAgendaId st.agendaLookup aid
        match v.agendaUUID with
        | none => (400, st)
        | some uuid =>
          if v.isValid then
            let row : SuggestionRow :=
              { id := ""
                agenda_id := uuid
                user_id := uid
                content := jsTrim (req.body.content.getD "")
                author_name := jsTrim (req.body.author_name.getD "")
                status := if st.autoApprove then "approved" else "pending"
                created_at := Int.ofNat req.now }
            (200, { st with suggestions := st.suggestions ++ [row] })
          else (400, st)

/-- The POST handler of `/api/suggestions`: origin gate (403), rate limit
(modelled rejection status 429), then `postAfterRate`. -/
def suggestionsPOST (st : ServerState) (req : PostRequest) : Nat × ServerState :=
  if req.originAllowed = false then (403, st)
  else
    match checkRateLimit st.rateHistory req.now 5 (10 * 60 * 1000) with
    | (false, hist) => (429, { st with rateHistory := hist })
    | (true, hist) => postAfterRate { st with rateHistory := hist } req

/-- Process a list of POST requests in arrival order, collecting the response
status codes and threading the server state. -/
def runPOSTs : ServerState → List PostRequest → List Nat × ServerState
  | st, [] => ([], st)
  | st, r :: rs =>
    let p := suggestionsPOST st r
    let q := runPOSTs p.2 rs
    (p.1 :: q.1, q.2)

/-- The GET handler of `/api/suggestions`: requires an `agenda_id` query
parameter (400 when absent or empty), validates and normalizes it (400 when
invalid), then returns the rows of the agenda whose status is `approved`,
most recent first. -/
def suggestionsGET (lookup : Nat → Option String) (db : List SuggestionRow)
    (agendaId : Option String) : Nat × List SuggestionRow :=
  match agendaId with
  | none => (400, [])
  | some aid =>
    if aid = "" then (400, [])
    else
      match (validateAndNormalizeAgendaId lookup aid).isValid,
          (validateAndNormalizeAgendaId lookup aid).agendaUUID with
      | true, some uuid =>
        (200, List.insertionSort (fun a b => b.created_at ≤ a.created_at)
          (db.filter (fun r => r.agenda_id == uuid && r.status == "approved")))
      | _, _ => (400, [])

/-! ### Optimistic vote update (`suggestion-list` client component) -/

/-- The two vote types. -/
inductive VoteType where
  | like
  | dislike
deriving DecidableEq

/-- The opposite vote type. -/
def otherVote : VoteType → VoteType
  | .like => .dislike
  | .dislike => .like

/-- Select the count belonging to a vote type. -/
def countOf (t : VoteType) (likes dislikes : Int) : Int :=
  match t with
  | .like => likes
  | .dislike => dislikes

/-- The optimistic local update of `handleVote`: given the user's current vote
and the displayed counts, clicking `voteType` toggles the vote and adjusts the
counts, which are stored clamped with `Math.max(0, _)`.  Returns the new vote
state and the new `(likes, dislikes)`. -/
def handleVoteUpdate (currentVote : Option VoteType) (likes dislikes : Int)
    (voteType : VoteType) : Option VoteType × Int × Int :=
  if currentVote = some voteType then
    let l := match voteType with | .like => likes - 1 | .dislike => likes
    let d := match voteType with | .like => dislikes | .dislike => dislikes - 1
    (none, max 0 l, max 0 d)
  else
    let l0 := match currentVote with | some .like => likes - 1 | _ => likes
    let d0 := match currentVote with | some .dislike => dislikes - 1 | _ => dislikes
    let l1 := match voteType with | .like => l0 + 1 | .dislike => l0
    let d1 := match voteType with | .like => d0 | .dislike => d0 + 1
    (some voteType, max 0 l1, max 0 d1)

/-! ### Popularity sorting (`sortedSuggestions` in the suggestion list) -/

/-- A suggestion enriched with the scores computed in the `map` step of
`sortedSuggestions`. -/
structure ScoredSuggestion where
  id : String
  likes : Int
  dislikes : Int
  netScore : Int
  totalEngagement : Int
deriving DecidableEq

/-- The `map` step: counts come from `voteCounts[s.id]` with a `0` default,
`netScore = likes - dislikes`, `totalEngagement = likes + dislikes`. -/
def mkScored (votes : String → Option (Int × Int)) (id : String) :
    ScoredSuggestion :=
  let l := match votes id with | some p => p.1 | none => 0
  let d := match votes id with | some p => p.2 | none => 0
  { id := id, likes := l, dislikes := d, netScore := l - d, totalEngagement := l + d }

/-- The `"popularity"` comparator of `sortedSuggestions`: when net scores
differ, `b.netScore - a.netScore`; otherwise
`b.totalEngagement - a.totalEngagement`. -/
def popCompare (a b : ScoredSuggestion) : Int :=
  if a.netScore ≠ b.netScore then b.netScore - a.netScore
  else b.totalEngagement - a.totalEngagement

/-- The non-strict order induced by the comparator (`compare(a, b) ≤ 0` means
`a` may come before `b`), which is how a JavaScript comparator orders the
array. -/
def popLe (a b : ScoredSuggestion) : Prop := popCompare a b ≤ 0

instance : DecidableRel popLe :=
  fun a b => inferInstanceAs (Decidable (popCompare a b ≤ 0))

/-- `sortedSuggestions` with `sortBy = "popularity"`: map then a stable sort by
the comparator (JavaScript `Array.prototype.sort` is stable; a stable
insertion sort realizes the same ordering contract). -/
def sortedSuggestions (votes : String → Option (Int × Int)) (ids : List String) :
    List ScoredSuggestion :=
  List.insertionSort popLe (ids.map (mkScored votes))

/-- The vote counts of the worked example in the spec: item `A` has 5 likes and
1 dislike, item `B` has 3 likes and no dislike. -/
def exampleVotes : String → Option (Int × Int) :=
  fun id => if id = "A" then some (5, 1) else if id = "B" then some (3, 0) else none

/-! ### Net-score sorting (`sortedData` in the manifesto list) -/

/-- `voteCountsMap.get(id) || { likes: 0, dislikes: 0 }` of the manifesto
list: the `(likes, dislikes)` pair of an item, defaulting to zeros. -/
def manifestoVoteCounts (votes : String → Option (Int × Int)) (id : String) :
    Int × Int :=
  match votes id with
  | some p => p
  | none => (0, 0)

/-- The score computed inside the `sortedData` comparator:
`likes - dislikes`. -/
def manifestoNetScore (votes : String → Option (Int × Int)) (id : String) : Int :=
  (manifestoVoteCounts votes id).1 - (manifestoVoteCounts votes id).2

/-- The total engagement (`likes + dislikes`) of a manifesto item, the
quantity the claim's tie-break speaks about (not computed by `sortedData`
itself). -/
def manifestoEngagement (votes : String → Option (Int × Int)) (id : String) : Int :=
  (manifestoVoteCounts votes id).1 + (manifestoVoteCounts votes id).2

/-- The order induced by the `sortedData` comparator `bScore - aScore`
(`compare(a, b) ≤ 0` means `a` may come before `b`). -/
def netLe (votes : String → Option (Int × Int)) (a b : String) : Prop :=
  manifestoNetScore votes b - manifestoNetScore votes a ≤ 0

instance (votes : String → Option (Int × Int)) : DecidableRel (netLe votes) :=
  fun a b =>
    inferInstanceAs (Decidable (manifestoNetScore votes b - manifestoNetScore votes a ≤ 0))

/-- `sortedData` from the manifesto list component: a stable sort of the
(filtered) items by descending net score, with no further tie-break
(JavaScript `Array.prototype.sort` is stable; a stable insertion sort
realizes the same ordering contract). -/
def sortedData (votes : String → Option (Int × Int)) (items : List String) :
    List String :=
  List.insertionSort (netLe votes) items

/-- Vote counts exhibiting a tie in net score with different engagement:
item `X` has one like and one dislike (net 0, engagement 2), item `Y` has no
votes (net 0, engagement 0). -/
def exampleTieVotes : String → Option (Int × Int) :=
  fun id => if id = "X" then some (1, 1) else if id = "Y" then some (0, 0) else none

/-! ### Seeded shuffle (`shuffledData` in the manifesto list) -/

/-- Swap the elements at positions `i` and `j` (the JavaScript three-step
element swap); out-of-range positions leave the list unchanged (unreachable in
the shuffle loop). -/
def swapList {α : Type} (l : List α) (i j : Nat) : List α :=
  if hi : i < l.length then
    if hj : j < l.length then (l.set i l[j]).set j l[i]
    else l
  else l

/-- The shuffle loop: with `m` running down from the length, swap position
`m - 1` with position `floor(seed * 1000000) % m`.  `s` models
`floor(randomSeed * 1000000)` (`randomSeed` lies in `[0, 1)`, so the
JavaScript float expression `Math.floor((randomSeed * 1000000) % m)` equals
`s % m`). -/
def fyShuffleAux {α : Type} (s : Nat) : Nat → List α → List α
  | 0, l => l
  | m + 1, l => fyShuffleAux s m (swapList l m (s % (m + 1)))

/-- `shuffledData`: the seeded shuffle applied to the whole list. -/
def shuffledData {α : Type} (s : Nat) (l : List α) : List α :=
  fyShuffleAux s l.length l

/-! ### `/api/testimonials` pagination clamping -/

/-- The effective `limit`: `Number.isFinite(p) && p > 0 ? Math.min(p, 200) : 50`
with the parsed parameter modelled as `Option ℚ` (`none` for a non-finite
parse; an absent parameter parses as `0`). -/
def testimonialsLimit (limitParam : Option ℚ) : ℚ :=
  match limitParam with
  | some q => if 0 < q then min q 200 else 50
  | none => 50

/-- The effective `offset`: `Number.isFinite(p) && p >= 0 ? p : 0`. -/
def testimonialsOffset (offsetParam : Option ℚ) : ℚ :=
  match offsetParam with
  | some q => if 0 ≤ q then q else 0
  | none => 0

/-! ### Concrete fixtures used by witnesses and counterexamples -/

/-- A sequence-id lookup on an empty `agendas` table. -/
def emptyLookup : Nat → Option String := fun _ => none

/-- A fresh server state: no recorded requests, empty tables, auto-approve
off. -/
def freshState : ServerState :=
  { rateHistory := [], suggestions := [], agendaLookup := emptyLookup,
    autoApprove := false }

/-- A minimal request fixture: `o` is the origin-check outcome, `t` the arrival
time; unauthenticated, empty body. -/
def bareRequest (o : Bool) (t : Nat) : PostRequest :=
  { originAllowed := o, now := t, authUser := none,
    body := { agenda_id := none, content := none, author_name := none } }

/-- An approved suggestion row attached to a fixed agenda UUID. -/
def exampleApprovedRow : SuggestionRow :=
  { id := "s1", agenda_id := "aaaaaaaa-aaaa-4aaa-8aaa-aaaaaaaaaaaa",
    user_id := "u1", content := "good", author_name := "Ann",
    status := "approved", created_at := 5 }

/-- A pending suggestion row attached to the same agenda UUID. -/
def examplePendingRow : SuggestionRow :=
  { id := "s2", agenda_id := "aaaaaaaa-aaaa-4aaa-8aaa-aaaaaaaaaaaa",
    user_id := "u2", content := "hidden", author_name := "Bob",
    status := "pending", created_at := 7 }

/-! ## Lemmas about the hexadecimal printer and the rolling hash -/

theorem digitChar_isHexDigit (n : Nat) (h : n < 16) :
    isHexDigit (Nat.digitChar n) = true := by
  interval_cases n <;> decide

theorem natToHexAux_all_hex (fuel : Nat) :
    ∀ n, n < fuel → ∀ c ∈ natToHexAux fuel n, isHexDigit c = true := by
  induction fuel with
  | zero => intro n hn; omega
  | succ fuel ih =>
    intro n _ c hc
    simp only [natToHexAux] at hc
    by_cases h16 : n < 16
    · rw [if_pos h16] at hc
      simp only [List.mem_singleton] at hc
      subst hc
      exact digitChar_isHexDigit n h16
    · rw [if_neg h16] at hc
      rcases List.mem_append.mp hc with hc | hc
      · have hdiv : n / 16 < fuel := by
          have := Nat.div_lt_self (by omega : 0 < n) (by omega : 1 < 16)
          omega
        exact ih (n / 16) hdiv c hc
      · simp only [List.mem_singleton] at hc
        subst hc
        exact digitChar_isHexDigit _ (Nat.mod_lt n (by omega))

theorem natToHexAux_length_le (fuel : Nat) :
    ∀ n k, n < fuel → 1 ≤ k → n < 16 ^ k → (natToHexAux fuel n).length ≤ k := by
  induction fuel with
  | zero => intro n k hn; omega
  | succ fuel ih =>
    intro n k hn hk hpow
    simp only [natToHexAux]
    by_cases h16 : n < 16
    · rw [if_pos h16]; simpa using hk
    · rw [if_neg h16]
      have hk2 : 2 ≤ k := by
        rcases Nat.lt_or_ge k 2 with hlt | hge
        · have hk1 : k = 1 := by omega
          subst hk1
          simp only [pow_one] at hpow
          omega
        · exact hge
      have hdiv : n / 16 < fuel := by
        have := Nat.div_lt_self (by omega : 0 < n) (by omega : 1 < 16)
        omega
      have hpow2 : n / 16 < 16 ^ (k - 1) := by
        have hsplit : 16 ^ k = 16 ^ (k - 1) * 16 := by
          rw [← pow_succ]
          congr 1
          omega
        rw [Nat.div_lt_iff_lt_mul (by omega : 0 < 16)]
        rw [hsplit] at hpow
        exact hpow
      have := ih (n / 16) (k - 1) hdiv (by omega) hpow2
      simp only [List.length_append, List.length_singleton]
      omega

theorem natToHex_all_hex (n : Nat) : ∀ c ∈ natToHex n, isHexDigit c = true :=
  natToHexAux_all_hex (n + 1) n (Nat.lt_succ_self n)

theorem natToHex_length_le (n k : Nat) (hk : 1 ≤ k) (h : n < 16 ^ k) :
    (natToHex n).length ≤ k :=
  natToHexAux_length_le (n + 1) n k (Nat.lt_succ_self n) hk h

theorem toInt32_bounds (x : Int) :
    -2147483648 ≤ toInt32 x ∧ toInt32 x < 2147483648 := by
  unfold toInt32
  constructor
  · have := Int.emod_nonneg (x + 2147483648) (by norm_num : (4294967296 : Int) ≠ 0)
    omega
  · have := Int.emod_lt_of_pos (x + 2147483648) (by norm_num : (0 : Int) < 4294967296)
    omega

theorem hashString_bounds (s : String) :
    -2147483648 ≤ hashString s ∧ hashString s < 2147483648 := by
  unfold hashString
  have key : ∀ (l : List Char) (init : Int),
      -2147483648 ≤ init → init < 2147483648 →
      -2147483648 ≤ l.foldl (fun h c => toInt32 (toInt32 (h * 32) - h + c.toNat)) init ∧
      l.foldl (fun h c => toInt32 (toInt32 (h * 32) - h + c.toNat)) init < 2147483648 := by
    intro l
    induction l with
    | nil => intro init h1 h2; exact ⟨h1, h2⟩
    | cons c rest ih =>
      intro init _ _
      simp only [List.foldl_cons]
      exact ih _ (toInt32_bounds _).1 (toInt32_bounds _).2
  exact key s.data 0 (by norm_num) (by norm_num)

theorem hashString_natAbs_lt (s : String) : (hashString s).natAbs < 16 ^ 8 := by
  have h := hashString_bounds s
  have : (hashString s).natAbs ≤ 2147483648 := by omega
  norm_num
  omega

/-! ## Lemmas about the string helpers -/

theorem matchesAt_append_self (pat rest : List Char) :
    matchesAt pat (pat ++ rest) = true := by
  induction pat with
  | nil => rfl
  | cons p ps ih => simp [matchesAt, ih]

theorem replaceFirstList_of_matches (pat repl : List Char) (s : List Char)
    (h : matchesAt pat s = true) :
    replaceFirstList pat repl s = repl ++ s.drop pat.length := by
  cases s with
  | nil => simp [replaceFirstList, h]
  | cons c rest => simp [replaceFirstList, h]

theorem splitOnDash_no_dash (l : List Char) (h : ∀ c ∈ l, c ≠ '-') :
    splitOnDash l = [l] := by
  induction l with
  | nil => rfl
  | cons c rest ih =>
    have hc : ¬(c = '-') := h c (by simp)
    have hrest := ih (fun x hx => h x (by simp [hx]))
    simp [splitOnDash, hc, hrest]

theorem splitOnDash_append (a b : List Char) (h : ∀ c ∈ a, c ≠ '-') :
    splitOnDash (a ++ '-' :: b) = a :: splitOnDash b := by
  induction a with
  | nil => simp [splitOnDash]
  | cons c rest ih =>
    have hc : ¬(c = '-') := h c (by simp)
    have hr := ih (fun x hx => h x (by simp [hx]))
    simp only [List.cons_append, splitOnDash, hc, if_false, List.append_eq, hr]

theorem isHexDigit_ne_dash {c : Char} (h : isHexDigit c = true) : c ≠ '-' := by
  intro he
  subst he
  exact absurd h (by decide)

theorem isDigit_isHexDigit {c : Char} (h : c.isDigit = true) :
    isHexDigit c = true := by
  simp [isHexDigit, h]

theorem padStartList_length (s : List Char) (n : Nat) (c : Char)
    (h : s.length ≤ n) : (padStartList s n c).length = n := by
  simp [padStartList]
  omega

theorem padStartList_mem (s : List Char) (n : Nat) (c : Char) :
    ∀ x ∈ padStartList s n c, x = c ∨ x ∈ s := by
  intro x hx
  rcases List.mem_append.mp hx with hx | hx
  · exact Or.inl (List.eq_of_mem_replicate hx)
  · exact Or.inr hx

/-! ## Claim C1 -/

/-- Claim C1: for any raw integer id string `n`, `toManifestoFormat n` equals
`"manifesto-" ++ n`, and `generateDeterministicUUID` is deterministic: two
calls with the same input string yield an identical output string. -/
theorem c1_toManifestoFormat_and_uuid_deterministic :
    (∀ id : String, isRawInteger id = true →
      toManifestoFormat id = "manifesto-" ++ id) ∧
    (∀ s t : String, s = t →
      generateDeterministicUUID s = generateDeterministicUUID t) := by
  constructor
  · intro id h
    simp [toManifestoFormat, h]
  · intro s t h
    rw [h]

/-- Witness for C1 at the concrete raw id `"42"` and seed `"manifesto-1"`. -/
theorem c1_witness :
    toManifestoFormat "42" = "manifesto-" ++ "42" ∧
    generateDeterministicUUID "manifesto-1" = generateDeterministicUUID "manifesto-1" :=
  ⟨c1_toManifestoFormat_and_uuid_deterministic.1 "42" (by decide),
   c1_toManifestoFormat_and_uuid_deterministic.2 "manifesto-1" "manifesto-1" rfl⟩

/-! ## Claim C7 -/

theorem uuidHex_length (m : String) : (uuidHex m).length = 8 :=
  padStartList_length _ 8 '0'
    (natToHex_length_le _ 8 (by omega) (hashString_natAbs_lt _))

theorem uuidHex_all_hex (m : String) :
    ∀ c ∈ uuidHex m, isHexDigit c = true := by
  intro c hc
  rcases padStartList_mem _ 8 '0' c hc with h | h
  · subst h; decide
  · exact natToHex_all_hex _ c h

set_option maxRecDepth 8000 in
/-- Counterexample to C7 as stated: for the input `manifesto-10000` (a
five-digit number), the generated string has a five-character second group and
is rejected by `isValidUUID`. -/
theorem c7_counterexample :
    isValidUUID (generateDeterministicUUID "manifesto-10000") = false := by
  decide

/-- Claim C7 (amended): for every input of the form `manifesto-<n>` where the
decimal numeral `<n>` has at most four digits, the string returned by
`generateDeterministicUUID` is accepted by `isValidUUID`. -/
theorem c7_uuid_shape (ds : List Char) (h1 : ds ≠ []) (h2 : ds.length ≤ 4)
    (h3 : ∀ c ∈ ds, c.isDigit = true) :
    isValidUUID (generateDeterministicUUID ("manifesto-" ++ String.mk ds)) = true := by
  set m := "manifesto-" ++ String.mk ds with hm
  have hdata : m.data = "manifesto-".data ++ ds := by
    rw [hm, String.data_append]
  have hnum : uuidNumberPart m = padStartList ds 4 '0' := by
    unfold uuidNumberPart
    rw [hdata, replaceFirstList_of_matches _ _ _ (matchesAt_append_self _ _),
      List.nil_append, List.drop_left]
  have hnumLen : (uuidNumberPart m).length = 4 := by
    rw [hnum]
    exact padStartList_length _ 4 '0' (by omega)
  have hnumHex : ∀ c ∈ uuidNumberPart m, isHexDigit c = true := by
    intro c hc
    rw [hnum] at hc
    rcases padStartList_mem _ 4 '0' c hc with h | h
    · subst h; decide
    · exact isDigit_isHexDigit (h3 c h)
  have hexLen := uuidHex_length m
  have hexHex := uuidHex_all_hex m
  have htake8 : (uuidHex m).take 8 = uuidHex m :=
    List.take_of_length_le (by omega)
  have hdrop8 : (uuidHex m).drop 8 = [] :=
    List.drop_eq_nil_of_le (by omega)
  have htake12 : (uuidHex m).take 12 = uuidHex m :=
    List.take_of_length_le (by omega)
  have hpadEnd : padEndList ((uuidHex m).take 12) 12 '0' =
      uuidHex m ++ List.replicate 4 '0' := by
    rw [htake12]
    unfold padEndList
    rw [hexLen]
  have hg5Len : (uuidHex m ++ List.replicate 4 '0').length = 12 := by
    simp [hexLen]
  have hg5Hex : ∀ c ∈ uuidHex m ++ List.replicate 4 '0', isHexDigit c = true := by
    intro c hc
    rcases List.mem_append.mp hc with h | h
    · exact hexHex c h
    · rw [List.eq_of_mem_replicate h]; decide
  have hexNoDash : ∀ c ∈ uuidHex m, c ≠ '-' :=
    fun c hc => isHexDigit_ne_dash (hexHex c hc)
  have hnumNoDash : ∀ c ∈ uuidNumberPart m, c ≠ '-' :=
    fun c hc => isHexDigit_ne_dash (hnumHex c hc)
  have hg5NoDash : ∀ c ∈ uuidHex m ++ List.replicate 4 '0', c ≠ '-' :=
    fun c hc => isHexDigit_ne_dash (hg5Hex c hc)
  unfold generateDeterministicUUID
  simp only [hdrop8, List.take_nil, List.isEmpty_nil, if_pos, htake8, hpadEnd]
  unfold isValidUUID
  have hsplit :
      splitOnDash (String.mk (uuidHex m ++ '-' ::
        (uuidNumberPart m ++ '-' ::
          ("4000".data ++ '-' ::
            (('8' :: "000".data) ++ '-' ::
              (uuidHex m ++ List.replicate 4 '0')))))).data =
      [uuidHex m, uuidNumberPart m, "4000".data, '8' :: "000".data,
        uuidHex m ++ List.replicate 4 '0'] := by
    show splitOnDash (uuidHex m ++ '-' :: _) = _
    rw [splitOnDash_append _ _ hexNoDash,
      splitOnDash_append _ _ hnumNoDash,
      splitOnDash_append _ _ (by decide),
      splitOnDash_append _ _ (by decide),
      splitOnDash_no_dash _ hg5NoDash]
  rw [hsplit]
  simp +decide [List.all_eq_true, hexLen, hnumLen, hexHex, hnumHex, hg5Hex]
  exact ⟨⟨hexHex, hnumHex⟩, hexHex⟩

/-- Witness for the amended C7 at the one-digit input `manifesto-1`. -/
theorem c7_witness :
    isValidUUID (generateDeterministicUUID ("manifesto-" ++ String.mk ['1'])) = true :=
  c7_uuid_shape ['1'] (by decide) (by decide) (by decide)

/-! ## Claim C2 -/

/-- Counterexample to C2 as stated: with a current vote of `like` and a likes
count of `0`, clicking `like` again leaves the stored likes count at `0`
(clamped by `Math.max(0, _)`) instead of decreasing it by exactly one to
`-1`. -/
theorem c2_counterexample :
    (handleVoteUpdate (some VoteType.like) 0 0 VoteType.like).2.1 = 0 ∧
    (handleVoteUpdate (some VoteType.like) 0 0 VoteType.like).2.1 ≠ 0 - 1 := by
  decide

/-- Claim C2 (amended): starting from any vote state and nonnegative counts,
the optimistic update satisfies the toggle semantics with decrements clamped
at zero: clicking the current vote type clears the vote and replaces that
type's count by `max 0 (c - 1)` (a decrease by exactly one whenever the count
was positive) leaving the other count unchanged; clicking the opposite type
replaces the old type's count by `max 0 (c - 1)` and increases the clicked
type's count by exactly one; clicking with no current vote increases only the
clicked type's count by exactly one. -/
theorem c2_vote_toggle (currentVote : Option VoteType) (likes dislikes : Int)
    (voteType : VoteType) (hl : 0 ≤ likes) (hd : 0 ≤ dislikes) :
    (currentVote = some voteType →
      (handleVoteUpdate currentVote likes dislikes voteType).1 = none ∧
      countOf voteType (handleVoteUpdate currentVote likes dislikes voteType).2.1
          (handleVoteUpdate currentVote likes dislikes voteType).2.2 =
        max 0 (countOf voteType likes dislikes - 1) ∧
      countOf (otherVote voteType)
          (handleVoteUpdate currentVote likes dislikes voteType).2.1
          (handleVoteUpdate currentVote likes dislikes voteType).2.2 =
        countOf (otherVote voteType) likes dislikes) ∧
    (currentVote = some (otherVote voteType) →
      (handleVoteUpdate currentVote likes dislikes voteType).1 = some voteType ∧
      countOf voteType (handleVoteUpdate currentVote likes dislikes voteType).2.1
          (handleVoteUpdate currentVote likes dislikes voteType).2.2 =
        countOf voteType likes dislikes + 1 ∧
      countOf (otherVote voteType)
          (handleVoteUpdate currentVote likes dislikes voteType).2.1
          (handleVoteUpdate currentVote likes dislikes voteType).2.2 =
        max 0 (countOf (otherVote voteType) likes dislikes - 1)) ∧
    (currentVote = none →
      (handleVoteUpdate currentVote likes dislikes voteType).1 = some voteType ∧
      countOf voteType (handleVoteUpdate currentVote likes dislikes voteType).2.1
          (handleVoteUpdate currentVote likes dislikes voteType).2.2 =
        countOf voteType likes dislikes + 1 ∧
      countOf (otherVote voteType)
          (handleVoteUpdate currentVote likes dislikes voteType).2.1
          (handleVoteUpdate currentVote likes dislikes voteType).2.2 =
        countOf (otherVote voteType) likes dislikes) := by
  refine ⟨fun h => ?_, fun h => ?_, fun h => ?_⟩ <;>
    subst h <;>
    cases voteType <;>
    simp_all [handleVoteUpdate, otherVote, countOf] <;>
    omega

/-- Witness for the amended C2: like then like again from `(likes, dislikes)
= (4, 2)` clears the vote and yields `(3, 2)`. -/
theorem c2_witness :
    (handleVoteUpdate (some VoteType.like) 4 2 VoteType.like).1 = none ∧
    countOf VoteType.like (handleVoteUpdate (some VoteType.like) 4 2 VoteType.like).2.1
        (handleVoteUpdate (some VoteType.like) 4 2 VoteType.like).2.2 =
      max 0 (countOf VoteType.like 4 2 - 1) ∧
    countOf (otherVote VoteType.like)
        (handleVoteUpdate (some VoteType.like) 4 2 VoteType.like).2.1
        (handleVoteUpdate (some VoteType.like) 4 2 VoteType.like).2.2 =
      countOf (otherVote VoteType.like) 4 2 :=
  (c2_vote_toggle (some VoteType.like) 4 2 VoteType.like (by decide) (by decide)).1 rfl

/-! ## Claim C3 -/

instance : IsTotal ScoredSuggestion popLe := by
  constructor
  intro a b
  simp only [popLe, popCompare, ne_eq]
  by_cases h : a.netScore = b.netScore
  · rw [if_neg (not_not_intro h), if_neg (not_not_intro h.symm)]
    omega
  · rw [if_pos h, if_pos (fun e => h e.symm)]
    omega

instance : IsTrans ScoredSuggestion popLe := by
  constructor
  intro a b c hab hbc
  simp only [popLe, popCompare, ne_eq] at *
  split_ifs at * <;> omega

theorem popLe_spec {a b : ScoredSuggestion} (h : popLe a b) :
    b.netScore ≤ a.netScore ∧
    (a.netScore = b.netScore → b.totalEngagement ≤ a.totalEngagement) := by
  simp only [popLe, popCompare, ne_eq] at h
  split_ifs at h with hne <;>
    first
      | exact ⟨by omega, fun he => absurd he hne⟩
      | (have heq : a.netScore = b.netScore := by tauto
         exact ⟨by omega, fun _ => by omega⟩)

instance (votes : String → Option (Int × Int)) : IsTotal String (netLe votes) := by
  constructor
  intro a b
  simp only [netLe]
  omega

instance (votes : String → Option (Int × Int)) : IsTrans String (netLe votes) := by
  constructor
  intro a b c hab hbc
  simp only [netLe] at *
  omega

/-- Counterexample to C3 as stated: the manifesto-list `sortedData` (one of
the claim's two cited sort implementations) compares by net score only.  With
`Y` (no votes: net 0, engagement 0) listed before `X` (one like, one dislike:
net 0, engagement 2), the stable sort keeps the input order `[Y, X]`, so two
items with equal net score appear with strictly increasing total engagement,
refuting the claimed tie-break. -/
theorem c3_counterexample :
    sortedData exampleTieVotes ["Y", "X"] = ["Y", "X"] ∧
    manifestoNetScore exampleTieVotes "Y" = manifestoNetScore exampleTieVotes "X" ∧
    ¬(manifestoEngagement exampleTieVotes "X" ≤ manifestoEngagement exampleTieVotes "Y") := by
  refine ⟨by decide, by decide, by decide⟩

/-- Claim C3 (amended): the suggestion-list popularity sort
(`sortedSuggestions`) yields net scores in non-increasing order with ties
ordered by non-increasing total engagement, and on the worked example
A(likes 5, dislikes 1), B(likes 3, dislikes 0) both sorts produce the order
`[A, B]` from either input order; the manifesto-list sort (`sortedData`)
guarantees only non-increasing net scores, with no engagement tie-break. -/
theorem c3_popularity_sort :
    (∀ (votes : String → Option (Int × Int)) (ids : List String),
      (sortedSuggestions votes ids).Pairwise (fun a b =>
        b.netScore ≤ a.netScore ∧
        (a.netScore = b.netScore → b.totalEngagement ≤ a.totalEngagement))) ∧
    (sortedSuggestions exampleVotes ["A", "B"]).map ScoredSuggestion.id = ["A", "B"] ∧
    (sortedSuggestions exampleVotes ["B", "A"]).map ScoredSuggestion.id = ["A", "B"] ∧
    (∀ (votes : String → Option (Int × Int)) (items : List String),
      (sortedData votes items).Pairwise (fun a b =>
        manifestoNetScore votes b ≤ manifestoNetScore votes a)) ∧
    sortedData exampleVotes ["A", "B"] = ["A", "B"] ∧
    sortedData exampleVotes ["B", "A"] = ["A", "B"] := by
  refine ⟨fun votes ids => ?_, by decide, by decide, fun votes items => ?_,
    by decide, by decide⟩
  · exact (List.sorted_insertionSort popLe (ids.map (mkScored votes))).imp
      (fun h => popLe_spec h)
  · exact (List.sorted_insertionSort (netLe votes) items).imp
      (fun h => by simpa [netLe] using h)

/-! ## Claim C5 -/

/-- Counterexample to C5 as stated: when the Supabase environment variables
are absent the middleware returns early and forwards even an unauthenticated
`/api/admin` request instead of answering 401. -/
theorem c5_counterexample :
    middleware false "/api/admin/x" none (fun _ => none) = MiddlewareResult.next ∧
    MiddlewareResult.next ≠ MiddlewareResult.unauthorized :=
  ⟨rfl, by decide⟩

/-- Claim C5 (amended): when the Supabase configuration is present, for every
request whose path begins with `/api/admin` the middleware answers 401 without
an authenticated user, answers 403 when the authenticated user's role is not
`admin`, and forwards the request exactly when the role is `admin`. -/
theorem c5_admin_gate (path : String) (user : Option String)
    (roleOf : String → Option String) (hp : pathIsAdminAPI path = true) :
    (user = none → middleware true path user roleOf = MiddlewareResult.unauthorized) ∧
    (∀ u, user = some u → roleOf u ≠ some "admin" →
      middleware true path user roleOf = MiddlewareResult.forbidden) ∧
    (∀ u, user = some u →
      (middleware true path user roleOf = MiddlewareResult.next ↔
        roleOf u = some "admin")) := by
  refine ⟨fun h => ?_, fun u h hr => ?_, fun u h => ?_⟩
  · subst h
    simp [middleware, hp]
  · subst h
    simp [middleware, hp, hr]
  · subst h
    by_cases hr : roleOf u = some "admin" <;> simp [middleware, hp, hr]

/-- Witness for the amended C5: an unauthenticated request to
`/api/admin/settings` is answered with 401. -/
theorem c5_witness :
    middleware true "/api/admin/settings" none (fun _ => none) =
      MiddlewareResult.unauthorized :=
  (c5_admin_gate "/api/admin/settings" none (fun _ => none) (by decide)).1 rfl

/-! ## Claim C4 -/

/-- Counterexample to C4 as stated: a request with whitespace-only content but
a disallowed origin is answered with 403, not 400 (the origin, rate-limit and
auth gates run before the body validation). -/
theorem c4_counterexample :
    contentInvalid (some " ") = true ∧
    (suggestionsPOST freshState
      { originAllowed := false, now := 0, authUser := some "u",
        body := { agenda_id := some "1", content := some " ",
                  author_name := some "Bob" } }).1 = 403 ∧
    (403 : Nat) ≠ 400 :=
  ⟨by decide, rfl, by decide⟩

/-- Claim C4 (amended): every suggestion POST that passes the origin check and
the rate limiter and is authenticated, and whose `content` or `author_name` is
absent, empty, or whitespace-only, is answered with 400 and leaves the
`suggestions` table unchanged. -/
theorem c4_validation_rejects (st : ServerState) (req : PostRequest) (u : String)
    (ho : req.originAllowed = true)
    (hr : (st.rateHistory.filter (fun t => req.now - t < 10 * 60 * 1000)).length < 5)
    (ha : req.authUser = some u)
    (hc : contentInvalid req.body.content = true ∨
      contentInvalid req.body.author_name = true) :
    (suggestionsPOST st req).1 = 400 ∧
    (suggestionsPOST st req).2.suggestions = st.suggestions := by
  have hcrl : checkRateLimit st.rateHistory req.now 5 (10 * 60 * 1000) =
      (true, req.now :: st.rateHistory.filter (fun t => req.now - t < 10 * 60 * 1000)) := by
    unfold checkRateLimit
    rw [if_neg (by omega)]
  simp only [suggestionsPOST, ho, Bool.true_eq_false, if_false, hcrl]
  simp only [postAfterRate, ha]
  cases hag : req.body.agenda_id with
  | none => exact ⟨rfl, rfl⟩
  | some aid =>
    by_cases he : aid = ""
    · simp [he]
    · rcases hc with hc | hc
      · simp [he, hc]
      · by_cases hcc : contentInvalid req.body.content = true
        · simp [he, hcc]
        · simp [he, hcc, hc]

/-- Witness for the amended C4: an authenticated, origin-allowed request on a
fresh state with empty content is answered 400 with no insert. -/
theorem c4_witness :
    (suggestionsPOST freshState
      { originAllowed := true, now := 0, authUser := some "u",
        body := { agenda_id := some "1", content := some "",
                  author_name := some "Bob" } }).1 = 400 ∧
    (suggestionsPOST freshState
      { originAllowed := true, now := 0, authUser := some "u",
        body := { agenda_id := some "1", content := some "",
                  author_name := some "Bob" } }).2.suggestions =
      freshState.suggestions :=
  c4_validation_rejects freshState
    { originAllowed := true, now := 0, authUser := some "u",
      body := { agenda_id := some "1", content := some "",
                author_name := some "Bob" } }
    "u" rfl (by decide) rfl (Or.inl (by decide))

/-! ## Claim C8 -/

/-- Claim C8: every suggestion contained in a successful (status 200) response
of the suggestions GET route has status `approved`; pending suggestions never
appear. -/
theorem c8_public_feed_approved (lookup : Nat → Option String)
    (db : List SuggestionRow) (agendaId : Option String)
    (rows : List SuggestionRow)
    (h : suggestionsGET lookup db agendaId = (200, rows)) :
    ∀ r ∈ rows, r.status = "approved" := by
  intro r hr
  unfold suggestionsGET at h
  cases agendaId with
  | none => simp at h
  | some aid =>
    by_cases he : aid = ""
    · simp [he] at h
    · cases hv : (validateAndNormalizeAgendaId lookup aid).isValid with
      | false => simp [he, hv] at h
      | true =>
        cases hu : (validateAndNormalizeAgendaId lookup aid).agendaUUID with
        | none => simp [he, hv, hu] at h
        | some uuid =>
          simp only [he, if_false, hv, hu, Prod.mk.injEq] at h
          obtain ⟨-, hrows⟩ := h
          subst hrows
          have hperm := List.perm_insertionSort
            (fun a b : SuggestionRow => b.created_at ≤ a.created_at)
            (db.filter (fun x => x.agenda_id == uuid && x.status == "approved"))
          have hmem : r ∈ db.filter
              (fun x => x.agenda_id == uuid && x.status == "approved") :=
            hperm.mem_iff.mp hr
          have hcond := (List.mem_filter.mp hmem).2
          simp only [Bool.and_eq_true, beq_iff_eq] at hcond
          exact hcond.2

/-- Witness for C8 on a concrete table holding one approved and one pending
row: the response is 200 with exactly the approved row, whose status is
`approved`. -/
theorem c8_witness : exampleApprovedRow.status = "approved" :=
  c8_public_feed_approved emptyLookup [exampleApprovedRow, examplePendingRow]
    (some "aaaaaaaa-aaaa-4aaa-8aaa-aaaaaaaaaaaa") [exampleApprovedRow] (by decide)
    exampleApprovedRow (by decide)

/-! ## Claim C6 -/

theorem postAfterRate_keeps (st : ServerState) (req : PostRequest) :
    (postAfterRate st req).2.rateHistory = st.rateHistory ∧
    (postAfterRate st req).1 ≠ 429 := by
  unfold postAfterRate
  cases req.authUser with
  | none => exact ⟨rfl, by norm_num⟩
  | some uid =>
    cases req.body.agenda_id with
    | none => exact ⟨rfl, by norm_num⟩
    | some aid =>
      by_cases he : aid = ""
      · simp [he]
      · by_cases hcc : contentInvalid req.body.content = true
        · simp [he, hcc]
        · by_cases hca : contentInvalid req.body.author_name = true
          · simp [he, hcc, hca]
          · cases hu : (validateAndNormalizeAgendaId st.agendaLookup aid).agendaUUID with
            | none => simp [he, hcc, hca, hu]
            | some uuid =>
              by_cases hv : (validateAndNormalizeAgendaId st.agendaLookup aid).isValid = true
              · simp [he, hcc, hca, hu, hv]
              · simp [he, hcc, hca, hu, hv]

theorem suggestionsPOST_rate_pass (st : ServerState) (req : PostRequest)
    (ho : req.originAllowed = true)
    (hlen : (st.rateHistory.filter (fun t => req.now - t < 10 * 60 * 1000)).length < 5) :
    (suggestionsPOST st req).1 ≠ 429 ∧
    (suggestionsPOST st req).2.rateHistory =
      req.now :: st.rateHistory.filter (fun t => req.now - t < 10 * 60 * 1000) := by
  have hcrl : checkRateLimit st.rateHistory req.now 5 (10 * 60 * 1000) =
      (true, req.now :: st.rateHistory.filter (fun t => req.now - t < 10 * 60 * 1000)) := by
    unfold checkRateLimit
    rw [if_neg (by omega)]
  simp only [suggestionsPOST, ho, Bool.true_eq_false, if_false, hcrl]
  refine ⟨(postAfterRate_keeps _ _).2, ?_⟩
  rw [(postAfterRate_keeps _ _).1]

theorem suggestionsPOST_rate_reject (st : ServerState) (req : PostRequest)
    (ho : req.originAllowed = true)
    (hlen : 5 ≤ (st.rateHistory.filter (fun t => req.now - t < 10 * 60 * 1000)).length) :
    (suggestionsPOST st req).1 = 429 ∧
    (suggestionsPOST st req).2.suggestions = st.suggestions := by
  have hcrl : checkRateLimit st.rateHistory req.now 5 (10 * 60 * 1000) =
      (false, st.rateHistory.filter (fun t => req.now - t < 10 * 60 * 1000)) := by
    unfold checkRateLimit
    rw [if_pos hlen]
  simp only [suggestionsPOST, ho, Bool.true_eq_false, if_false, hcrl]
  exact ⟨by trivial, by trivial⟩

/-- Counterexample to C6 as stated: six suggestion POSTs from the same IP all
within one 10-minute window, of which the first is blocked by the origin check
that runs before the rate limiter, so it is never counted; the sixth request
is then the fifth one the limiter sees and is admitted (status 401 from the
auth gate, not a rate-limit rejection). -/
theorem c6_counterexample :
    (runPOSTs freshState
      [bareRequest false 0, bareRequest true 0, bareRequest true 0,
       bareRequest true 0, bareRequest true 0, bareRequest true 0]).1 =
      [403, 401, 401, 401, 401, 401] ∧
    (403 : Nat) ≠ 429 ∧ (401 : Nat) ≠ 429 :=
  ⟨rfl, by decide, by decide⟩

/-- Claim C6 (amended, limiter modelled from the spec): starting from an empty
rate-limit history, in every sequence of six suggestion POSTs from the same IP
that all pass the origin check, with non-decreasing arrival times spanning
less than ten minutes, none of the first five is rejected by the rate limiter,
while the sixth is rejected by it (status 429) regardless of its
authentication data, and the sixth request leaves the `suggestions` table
unchanged. -/
theorem c6_rate_limit (st0 : ServerState) (r1 r2 r3 r4 r5 r6 : PostRequest)
    (h0 : st0.rateHistory = [])
    (ho1 : r1.originAllowed = true) (ho2 : r2.originAllowed = true)
    (ho3 : r3.originAllowed = true) (ho4 : r4.originAllowed = true)
    (ho5 : r5.originAllowed = true) (ho6 : r6.originAllowed = true)
    (m12 : r1.now ≤ r2.now) (m23 : r2.now ≤ r3.now) (m34 : r3.now ≤ r4.now)
    (m45 : r4.now ≤ r5.now) (m56 : r5.now ≤ r6.now)
    (hw : r6.now - r1.now < 10 * 60 * 1000) :
    (∀ code ∈ (runPOSTs st0 [r1, r2, r3, r4, r5]).1, code ≠ 429) ∧
    (suggestionsPOST (runPOSTs st0 [r1, r2, r3, r4, r5]).2 r6).1 = 429 ∧
    (suggestionsPOST (runPOSTs st0 [r1, r2, r3, r4, r5]).2 r6).2.suggestions =
      (runPOSTs st0 [r1, r2, r3, r4, r5]).2.suggestions := by
  have f1 : st0.rateHistory.filter (fun t => r1.now - t < 10 * 60 * 1000) = [] := by
    rw [h0]
    rfl
  have h1 := suggestionsPOST_rate_pass st0 r1 ho1 (by rw [f1]; simp only [List.length_nil]; omega)
  have e1 : (suggestionsPOST st0 r1).2.rateHistory = [r1.now] := by
    rw [h1.2, f1]
  have f2 : ((suggestionsPOST st0 r1).2.rateHistory).filter
      (fun t => r2.now - t < 10 * 60 * 1000) = [r1.now] := by
    rw [e1]
    simp only [List.filter_cons, List.filter_nil]
    rw [if_pos (by simp only [decide_eq_true_eq]; omega)]
  have h2 := suggestionsPOST_rate_pass _ r2 ho2 (by rw [f2]; simp only [List.length_cons, List.length_nil]; omega)
  have e2 : (suggestionsPOST (suggestionsPOST st0 r1).2 r2).2.rateHistory =
      [r2.now, r1.now] := by
    rw [h2.2, f2]
  have f3 : ((suggestionsPOST (suggestionsPOST st0 r1).2 r2).2.rateHistory).filter
      (fun t => r3.now - t < 10 * 60 * 1000) = [r2.now, r1.now] := by
    rw [e2]
    simp only [List.filter_cons, List.filter_nil]
    rw [if_pos (by simp only [decide_eq_true_eq]; omega),
      if_pos (by simp only [decide_eq_true_eq]; omega)]
  have h3 := suggestionsPOST_rate_pass _ r3 ho3 (by rw [f3]; simp only [List.length_cons, List.length_nil]; omega)
  have e3 : (suggestionsPOST (suggestionsPOST (suggestionsPOST st0 r1).2 r2).2
      r3).2.rateHistory = [r3.now, r2.now, r1.now] := by
    rw [h3.2, f3]
  have f4 : ((suggestionsPOST (suggestionsPOST (suggestionsPOST st0 r1).2 r2).2
      r3).2.rateHistory).filter (fun t => r4.now - t < 10 * 60 * 1000) =
      [r3.now, r2.now, r1.now] := by
    rw [e3]
    simp only [List.filter_cons, List.filter_nil]
    rw [if_pos (by simp only [decide_eq_true_eq]; omega),
      if_pos (by simp only [decide_eq_true_eq]; omega),
      if_pos (by simp only [decide_eq_true_eq]; omega)]
  have h4 := suggestionsPOST_rate_pass _ r4 ho4 (by rw [f4]; simp only [List.length_cons, List.length_nil]; omega)
  have e4 : (suggestionsPOST (suggestionsPOST (suggestionsPOST
      (suggestionsPOST st0 r1).2 r2).2 r3).2 r4).2.rateHistory =
      [r4.now, r3.now, r2.now, r1.now] := by
    rw [h4.2, f4]
  have f5 : ((suggestionsPOST (suggestionsPOST (suggestionsPOST
      (suggestionsPOST st0 r1).2 r2).2 r3).2 r4).2.rateHistory).filter
      (fun t => r5.now - t < 10 * 60 * 1000) =
      [r4.now, r3.now, r2.now, r1.now] := by
    rw [e4]
    simp only [List.filter_cons, List.filter_nil]
    rw [if_pos (by simp only [decide_eq_true_eq]; omega),
      if_pos (by simp only [decide_eq_true_eq]; omega),
      if_pos (by simp only [decide_eq_true_eq]; omega),
      if_pos (by simp only [decide_eq_true_eq]; omega)]
  have h5 := suggestionsPOST_rate_pass _ r5 ho5 (by rw [f5]; simp only [List.length_cons, List.length_nil]; omega)
  have e5 : (suggestionsPOST (suggestionsPOST (suggestionsPOST (suggestionsPOST
      (suggestionsPOST st0 r1).2 r2).2 r3).2 r4).2 r5).2.rateHistory =
      [r5.now, r4.now, r3.now, r2.now, r1.now] := by
    rw [h5.2, f5]
  have f6 : ((suggestionsPOST (suggestionsPOST (suggestionsPOST (suggestionsPOST
      (suggestionsPOST st0 r1).2 r2).2 r3).2 r4).2 r5).2.rateHistory).filter
      (fun t => r6.now - t < 10 * 60 * 1000) =
      [r5.now, r4.now, r3.now, r2.now, r1.now] := by
    rw [e5]
    simp only [List.filter_cons, List.filter_nil]
    rw [if_pos (by simp only [decide_eq_true_eq]; omega),
      if_pos (by simp only [decide_eq_true_eq]; omega),
      if_pos (by simp only [decide_eq_true_eq]; omega),
      if_pos (by simp only [decide_eq_true_eq]; omega),
      if_pos (by simp only [decide_eq_true_eq]; omega)]
  have h6 := suggestionsPOST_rate_reject _ r6 ho6 (by rw [f6]; simp only [List.length_cons, List.length_nil]; omega)
  have hrun : (runPOSTs st0 [r1, r2, r3, r4, r5]).2 =
      (suggestionsPOST (suggestionsPOST (suggestionsPOST (suggestionsPOST
        (suggestionsPOST st0 r1).2 r2).2 r3).2 r4).2 r5).2 := by
    simp [runPOSTs]
  refine ⟨?_, ?_, ?_⟩
  · intro code hc
    have hcodes : (runPOSTs st0 [r1, r2, r3, r4, r5]).1 =
        [(suggestionsPOST st0 r1).1,
         (suggestionsPOST (suggestionsPOST st0 r1).2 r2).1,
         (suggestionsPOST (suggestionsPOST (suggestionsPOST st0 r1).2 r2).2 r3).1,
         (suggestionsPOST (suggestionsPOST (suggestionsPOST
           (suggestionsPOST st0 r1).2 r2).2 r3).2 r4).1,
         (suggestionsPOST (suggestionsPOST (suggestionsPOST (suggestionsPOST
           (suggestionsPOST st0 r1).2 r2).2 r3).2 r4).2 r5).1] := by
      simp [runPOSTs]
    rw [hcodes] at hc
    simp only [List.mem_cons, List.not_mem_nil, or_false] at hc
    rcases hc with hc | hc | hc | hc | hc <;> rw [hc]
    · exact h1.1
    · exact h2.1
    · exact h3.1
    · exact h4.1
    · exact h5.1
  · rw [hrun]
    exact h6.1
  · rw [hrun]
    exact h6.2

/-- Witness for the amended C6 at six concrete requests one second apart with
the same IP and allowed origin: the first five are admitted by the limiter and
the sixth is rejected. -/
theorem c6_witness :
    (∀ code ∈ (runPOSTs freshState
      [bareRequest true 0, bareRequest true 1000, bareRequest true 2000,
       bareRequest true 3000, bareRequest true 4000]).1, code ≠ 429) ∧
    (suggestionsPOST (runPOSTs freshState
      [bareRequest true 0, bareRequest true 1000, bareRequest true 2000,
       bareRequest true 3000, bareRequest true 4000]).2
      (bareRequest true 5000)).1 = 429 ∧
    (suggestionsPOST (runPOSTs freshState
      [bareRequest true 0, bareRequest true 1000, bareRequest true 2000,
       bareRequest true 3000, bareRequest true 4000]).2
      (bareRequest true 5000)).2.suggestions =
      (runPOSTs freshState
        [bareRequest true 0, bareRequest true 1000, bareRequest true 2000,
         bareRequest true 3000, bareRequest true 4000]).2.suggestions :=
  c6_rate_limit freshState (bareRequest true 0) (bareRequest true 1000)
    (bareRequest true 2000) (bareRequest true 3000) (bareRequest true 4000)
    (bareRequest true 5000) rfl rfl rfl rfl rfl rfl rfl
    (by decide) (by decide) (by decide) (by decide) (by decide) (by decide)

/-! ## Claim C9 -/

theorem set_swap_head {α : Type} (t : List α) (m : Nat) (x : α)
    (h : m < t.length) : List.Perm (t[m] :: t.set m x) (x :: t) := by
  induction t generalizing m with
  | nil => simp at h
  | cons y r ih =>
    cases m with
    | zero =>
      simpa using List.Perm.swap x y r
    | succ k =>
      have hk : k < r.length := by simpa using h
      have step1 : List.Perm (r[k] :: y :: r.set k x) (y :: r[k] :: r.set k x) :=
        List.Perm.swap y r[k] (r.set k x)
      have step2 : List.Perm (y :: r[k] :: r.set k x) (y :: x :: r) :=
        List.Perm.cons y (ih k hk)
      have step3 : List.Perm (y :: x :: r) (x :: y :: r) := List.Perm.swap x y r
      simpa using (step1.trans step2).trans step3

theorem set_set_swap_perm {α : Type} (l : List α) (i j : Nat)
    (hi : i < l.length) (hj : j < l.length) :
    List.Perm ((l.set i l[j]).set j l[i]) l := by
  induction l generalizing i j with
  | nil => simp at hi
  | cons x t ih =>
    cases i with
    | zero =>
      cases j with
      | zero => simp
      | succ m =>
        have hm : m < t.length := by simpa using hj
        simpa using set_swap_head t m x hm
    | succ k =>
      cases j with
      | zero =>
        have hk : k < t.length := by simpa using hi
        simpa using set_swap_head t k x hk
      | succ m =>
        have hk : k < t.length := by simpa using hi
        have hm : m < t.length := by simpa using hj
        simpa using List.Perm.cons x (ih k m hk hm)

theorem swapList_perm {α : Type} (l : List α) (i j : Nat) :
    List.Perm (swapList l i j) l := by
  unfold swapList
  split
  · split
    · exact set_set_swap_perm l i j (by assumption) (by assumption)
    · exact List.Perm.refl l
  · exact List.Perm.refl l

theorem fyShuffleAux_perm {α : Type} (s : Nat) (m : Nat) (l : List α) :
    List.Perm (fyShuffleAux s m l) l := by
  induction m generalizing l with
  | zero => exact List.Perm.refl l
  | succ m ih =>
    exact (ih (swapList l m (s % (m + 1)))).trans
      (swapList_perm l m (s % (m + 1)))

/-- Claim C9: for every seed and list, the seeded shuffle returns a permutation
of its input — same length and same multiset of elements — and for a fixed
seed the output is fully determined by the input. -/
theorem c9_shuffle_perm {α : Type} (s : Nat) (l : List α) :
    List.Perm (shuffledData s l) l ∧
    (shuffledData s l).length = l.length ∧
    ((shuffledData s l : Multiset α) = (l : Multiset α)) ∧
    ∀ l2 : List α, l = l2 → shuffledData s l = shuffledData s l2 := by
  have hp : List.Perm (shuffledData s l) l := fyShuffleAux_perm s l.length l
  exact ⟨hp, hp.length_eq, Multiset.coe_eq_coe.mpr hp, fun l2 h => by rw [h]⟩

/-- Witness for C9 at seed 3 and the list `[10, 20, 30]`. -/
theorem c9_witness :
    List.Perm (shuffledData 3 [10, 20, 30]) [10, 20, 30] ∧
    (shuffledData 3 [10, 20, 30]).length = 3 ∧
    shuffledData 3 [10, 20, 30] = shuffledData 3 [10, 20, 30] :=
  ⟨(c9_shuffle_perm 3 [10, 20, 30]).1,
   (c9_shuffle_perm 3 [10, 20, 30]).2.1,
   (c9_shuffle_perm 3 [10, 20, 30]).2.2.2 [10, 20, 30] rfl⟩

/-! ## Claim C10 -/

/-- Counterexample to C10 as stated: the query string `limit=0.5` parses to the
finite positive number one half, so the limit used is `0.5`, which is not
between 1 and 200. -/
theorem c10_counterexample :
    testimonialsLimit (some (1 / 2)) = 1 / 2 ∧
    ¬(1 ≤ testimonialsLimit (some (1 / 2))) := by
  constructor
  · norm_num [testimonialsLimit]
  · norm_num [testimonialsLimit]

/-- Claim C10 (amended): the effective limit is 50 when the parameter is
non-finite or not positive; otherwise it equals `min(limit, 200)`, hence is
positive and at most 200, and is at least 1 whenever the parameter is an
integer.  The effective offset is 0 when the parameter is non-finite or
negative and is the parameter itself otherwise. -/
theorem c10_pagination_clamp (p q : Option ℚ) :
    (p = none → testimonialsLimit p = 50) ∧
    (∀ x : ℚ, p = some x → x ≤ 0 → testimonialsLimit p = 50) ∧
    (∀ x : ℚ, p = some x → 0 < x →
      testimonialsLimit p = min x 200 ∧
      0 < testimonialsLimit p ∧ testimonialsLimit p ≤ 200 ∧
      (∀ n : ℤ, x = (n : ℚ) → 1 ≤ testimonialsLimit p)) ∧
    (q = none → testimonialsOffset q = 0) ∧
    (∀ x : ℚ, q = some x → x < 0 → testimonialsOffset q = 0) ∧
    (∀ x : ℚ, q = some x → 0 ≤ x → testimonialsOffset q = x) := by
  refine ⟨fun h => by rw [h]; rfl,
    fun x h hx => ?_, fun x h hx => ?_,
    fun h => by rw [h]; rfl,
    fun x h hx => ?_, fun x h hx => ?_⟩
  · rw [h]
    simp only [testimonialsLimit]
    rw [if_neg (by linarith)]
  · rw [h]
    simp only [testimonialsLimit]
    rw [if_pos hx]
    refine ⟨rfl, lt_min hx (by norm_num), min_le_right x 200, fun n hn => ?_⟩
    have h1n : (1 : ℤ) ≤ n := by
      by_contra hcon
      push_neg at hcon
      have : (n : ℚ) ≤ 0 := by
        have : n ≤ 0 := by omega
        exact_mod_cast this
      rw [hn] at hx
      linarith
    have h1x : (1 : ℚ) ≤ x := by
      rw [hn]
      exact_mod_cast h1n
    exact le_min h1x (by norm_num)
  · rw [h]
    simp only [testimonialsOffset]
    rw [if_neg (by linarith)]
  · rw [h]
    simp only [testimonialsOffset]
    rw [if_pos hx]

/-- Witness for the amended C10 at `limit = 300` and `offset = 7`: the
effective values are 200 and 7. -/
theorem c10_witness :
    testimonialsLimit (some 300) = min 300 200 ∧
    testimonialsOffset (some 7) = 7 :=
  ⟨((c10_pagination_clamp (some 300) (some 7)).2.2.1 300 rfl (by norm_num)).1,
   (c10_pagination_clamp (some 300) (some 7)).2.2.2.2.2 7 rfl (by norm_num)⟩
